import Mathlib

/-!
Verification of the alaya credential-store and session-lifecycle core.

The Rust source (src/database.rs, src/lib.rs) is shallowly embedded:

* The SQLite-backed stores become an explicit `DB` state (a list of user
  rows and a list of session rows); `SELECT ... WHERE c = ? ... fetch_optional`
  becomes `List.find?`, `INSERT` becomes an append, `DELETE ... WHERE`
  becomes a `List.filter`.
* Nondeterministic inputs of the Rust code (the Argon2 salt drawn from
  `OsRng`, the UUIDs used for user ids, session ids and tokens, and the
  RFC 3339 timestamps) are passed in as explicit arguments.
* The Argon2 digest itself is an abstract function `Digest`
  (password → salt → digest); the PHC-encoded hash string is modelled by
  `HashBlob`, whose `malformed` constructor stands for any string that
  `argon2::PasswordHash::new` rejects.
* Fallible Rust functions returning `Result` become `Except String`;
  functions returning `Option` stay `Option`.
* Rust `&str` operations used by the cookie parser (`split(';')`,
  `trim`, `strip_prefix`) are modelled character-by-character on
  `String.data`, matching Rust's `char`-level semantics.
* `str::len` (UTF-8 byte length) is `String.utf8ByteSize`.
-/

namespace Alaya

/-- The Argon2 digest, abstracted: password and salt to digest.
The concrete memory-hard function lives in the `argon2` crate, outside
the repository; every theorem below holds for an arbitrary digest. -/
def Digest : Type := String → String → String

/-- The self-describing PHC hash string produced by
`argon2.hash_password(..).to_string()`: it carries the salt and the
digest.  `malformed raw` stands for any string `PasswordHash::new`
fails to parse. -/
inductive HashBlob where
  | phc (salt digest : String)
  | malformed (raw : String)
deriving DecidableEq, Repr

/-- `argon2::PasswordHash::new`: recover the salt and digest from the
blob, failing on a malformed blob. -/
def parse_hash : HashBlob → Option (String × String)
  | .phc s d => some (s, d)
  | .malformed _ => none

/-- `Database::hash_password` (src/database.rs:207-215): hash the
password with a fresh salt and return the encoded blob.  The salt,
drawn from `OsRng` in the source, is an explicit argument here. -/
def hash_password (d : Digest) (password salt : String) : HashBlob :=
  .phc salt (d password salt)

/-- `Database::verify_password` (src/database.rs:217-225): parse the
blob (propagating a parse failure as `Err("Invalid password hash")`),
recompute the digest and compare. -/
def verify_password (d : Digest) (password : String) (hash : HashBlob) :
    Except String Bool :=
  match parse_hash hash with
  | none => .error "Invalid password hash"
  | some (salt, dgst) => .ok (d password salt == dgst)

/-- A row of the `users` table (struct `User`, src/lib.rs:57-64). -/
structure User where
  id : String
  username : String
  password_hash : HashBlob
  created_at : String
deriving DecidableEq, Repr

/-- A row of the `sessions` table. -/
structure Session where
  id : String
  user_id : String
  token : String
  created_at : String
deriving DecidableEq, Repr

/-- The store state: the `users` and `sessions` tables. -/
structure DB where
  users : List User
  sessions : List Session
deriving DecidableEq, Repr

/-- `Database::create_user` (src/database.rs:143-174): reject when a
row with the username exists, otherwise hash the password, insert a
fresh row and return the generated id.  `salt`, `uid` and `now` reify
the salt, UUID and timestamp generated inside the Rust function. -/
def create_user (db : DB) (d : Digest) (salt username password uid now : String) :
    Except String (String × DB) :=
  if (db.users.find? (fun u => u.username == username)).isSome then
    .error "Username already exists"
  else
    let ph := hash_password d password salt
    .ok (uid,
      { db with users :=
          db.users ++ [{ id := uid, username := username,
                         password_hash := ph, created_at := now }] })

/-- `Database::verify_user` (src/database.rs:176-205): look the row up
by username (`None` when absent), verify the password against the
stored blob — propagating a `verify_password` error with `?` — and
return the user on a match, `None` on a mismatch. -/
def verify_user (db : DB) (d : Digest) (username password : String) :
    Except String (Option User) :=
  match db.users.find? (fun u => u.username == username) with
  | none => .ok none
  | some row =>
    match verify_password d password row.password_hash with
    | .error e => .error e
    | .ok b => if b then .ok (some row) else .ok none

/-- `Database::create_session` (src/database.rs:228-244): insert a row
linking a fresh token to `user_id` and return the token.  `token`,
`session_id` and `now` reify the UUIDs and timestamp generated inside
the Rust function. -/
def create_session (db : DB) (user_id token session_id now : String) :
    String × DB :=
  (token,
    { db with sessions :=
        db.sessions ++ [{ id := session_id, user_id := user_id,
                          token := token, created_at := now }] })

/-- `Database::validate_session` (src/database.rs:246-271): the SQL
join `sessions s JOIN users u ON s.user_id = u.id WHERE s.token = ?`,
materialising the user with `id := s.user_id` as in the source. -/
def validate_session (db : DB) (token : String) : Option User :=
  match db.sessions.find? (fun s => s.token == token) with
  | none => none
  | some s =>
    match db.users.find? (fun u => u.id == s.user_id) with
    | none => none
    | some u =>
      some { id := s.user_id, username := u.username,
             password_hash := u.password_hash, created_at := u.created_at }

/-- `Database::delete_session` (src/database.rs:273-280):
`DELETE FROM sessions WHERE token = ?`. -/
def delete_session (db : DB) (token : String) : DB :=
  { db with sessions := db.sessions.filter (fun s => !(s.token == token)) }

/-- The inbound cookie header as `current_user` sees it: absent,
present but not valid UTF-8 (`to_str` fails), or a string. -/
inductive CookieHeader where
  | absent
  | invalid
  | value (s : String)
deriving DecidableEq, Repr

/-- Rust `str::split(sep)` accumulator: cut the character list at each
separator, keeping empty segments, as Rust does. -/
def split_on_char_aux (sep : Char) : List Char → List Char → List (List Char)
  | [], acc => [acc.reverse]
  | c :: cs, acc =>
    if c = sep then acc.reverse :: split_on_char_aux sep cs []
    else split_on_char_aux sep cs (c :: acc)

/-- Rust `str::split(sep)` over a string. -/
def split_on_char (sep : Char) (s : String) : List String :=
  (split_on_char_aux sep s.data []).map String.mk

/-- Rust `char::is_whitespace`: the Unicode White_Space property —
U+0009-U+000D, U+0020, U+0085, U+00A0, U+1680, U+2000-U+200A,
U+2028, U+2029, U+202F, U+205F and U+3000. -/
def rust_is_whitespace (c : Char) : Bool :=
  decide ((0x09 <= c.toNat ∧ c.toNat <= 0x0D) ∨ c.toNat = 0x20 ∨ c.toNat = 0x85 ∨
    c.toNat = 0xA0 ∨ c.toNat = 0x1680 ∨ (0x2000 <= c.toNat ∧ c.toNat <= 0x200A) ∨
    c.toNat = 0x2028 ∨ c.toNat = 0x2029 ∨ c.toNat = 0x202F ∨
    c.toNat = 0x205F ∨ c.toNat = 0x3000)

/-- Rust `str::trim`: drop leading and trailing Unicode whitespace
(`char::is_whitespace`, the White_Space property). -/
def str_trim (s : String) : String :=
  String.mk (((s.data.dropWhile rust_is_whitespace).reverse.dropWhile
      rust_is_whitespace).reverse)

/-- Rust `str::strip_prefix p`: the remainder after `p` when `s`
starts with `p`, otherwise `none`. -/
def strip_leading (p s : String) : Option String :=
  if p.data.isPrefixOf s.data then some (String.mk (s.data.drop p.data.length))
  else none

/-- `extract_session_token` (src/lib.rs:362-373): absent or
non-UTF-8 header gives `none`; otherwise split the header on `;`,
trim each segment, and return the value of the first segment carrying
the `session_token=` label. -/
def extract_session_token : CookieHeader → Option String
  | .absent => none
  | .invalid => none
  | .value s =>
    (split_on_char ';' s).findSome? (fun cookie =>
      strip_leading "session_token=" (str_trim cookie))

/-- `current_user` (src/lib.rs:357-360): compose `extract_session_token`
with the store's `validate_session`, collapsing both the missing-token
case (`?`) and a storage error (`.ok()?`) to `none`.  The store access
is abstracted as `validate`, covering every store state and failure. -/
def current_user (validate : String → Except String (Option User))
    (h : CookieHeader) : Option User :=
  match extract_session_token h with
  | none => none
  | some token =>
    match validate token with
    | .error _ => none
    | .ok r => r

/-- The signup form (struct `SignupForm`, src/lib.rs:154-159). -/
structure SignupForm where
  username : String
  password : String
  confirm_password : String
deriving DecidableEq, Repr

/-- Does `pat` occur as a contiguous run inside the character list? -/
def contains_chars (pat : List Char) : List Char → Bool
  | [] => pat.isEmpty
  | c :: cs => pat.isPrefixOf (c :: cs) || contains_chars pat cs

/-- Rust `str::contains(pat)`: the substring check `signup_submit`
uses on error messages (`error.to_string().contains("already exists")`). -/
def contains_substr (s pat : String) : Bool :=
  contains_chars pat.data s.data

/-- The observable outcome of `signup_submit`: a redirect carrying the
session cookie's token, or a re-rendered form with an inline error. -/
inductive SignupOutcome where
  | redirect (token : String)
  | formError (message : String)
deriving DecidableEq, Repr

/-- `signup_submit` (src/lib.rs:170-219): trim the username, reject an
empty username, a password under 8 bytes (`str::len`), and a
confirmation mismatch; then create the user and a session.  On a
`create_user` error the caller branches on the substring
`"already exists"`.  `salt`, `uid`, `now`, `token`, `session_id` reify
the values generated downstream. -/
def signup_submit (db : DB) (d : Digest) (salt uid now token session_id : String)
    (form : SignupForm) : SignupOutcome × DB :=
  let username := str_trim form.username
  let password := form.password
  if username.isEmpty then
    (.formError "Username cannot be empty", db)
  else if password.utf8ByteSize < 8 then
    (.formError "Password must be at least 8 characters long", db)
  else if !(password == form.confirm_password) then
    (.formError "Passwords do not match", db)
  else
    match create_user db d salt username password uid now with
    | .ok (user_id, db1) =>
      let r := create_session db1 user_id token session_id now
      (.redirect r.1, r.2)
    | .error e =>
      if contains_substr e "already exists" then
        (.formError "Username already exists", db)
      else
        (.formError "Could not create account. Please try again.", db)

/-- The serde serialization of `User` (src/lib.rs:57-64): the derive
emits the fields in declaration order, and `#[serde(skip)]` on
`password_hash` removes it from the output. -/
def serialize_user (u : User) : List (String × String) :=
  [("id", u.id), ("username", u.username), ("created_at", u.created_at)]

/-! ## Helper lemmas -/

/-- `create_user` fails only with the duplicate-username message. -/
theorem create_user_error_msg (db : DB) (d : Digest)
    (salt username password uid now e : String)
    (h : create_user db d salt username password uid now = .error e) :
    e = "Username already exists" := by
  unfold create_user at h
  split at h
  · exact (Except.error.injEq _ _ ▸ h).symm
  · exact absurd h (by simp)

/-- A successful `create_user` returns the supplied fresh id and the
state with the new row appended. -/
theorem create_user_ok (db : DB) (d : Digest)
    (salt username password uid now uid' : String) (db' : DB)
    (h : create_user db d salt username password uid now = .ok (uid', db')) :
    db.users.find? (fun u => u.username == username) = none ∧ uid' = uid ∧
      db'.users = db.users ++
        [{ id := uid, username := username,
           password_hash := hash_password d password salt, created_at := now }] := by
  unfold create_user at h
  split at h
  · exact absurd h (by simp)
  · rename_i hg
    have hnone : db.users.find? (fun u => u.username == username) = none := by
      cases hf : db.users.find? (fun u => u.username == username) with
      | none => rfl
      | some u => rw [hf] at hg; simp at hg
    simp only [Except.ok.injEq, Prod.mk.injEq] at h
    exact ⟨hnone, h.1.symm, by rw [← h.2]⟩

/-- Verifying a password against the blob freshly hashed from it
succeeds. -/
theorem verify_hash_self (d : Digest) (password salt : String) :
    verify_password d password (hash_password d password salt) = .ok true := by
  simp [verify_password, hash_password, parse_hash]

/-- `signup_submit` rejects a password under 8 UTF-8 bytes (when the
trimmed username is non-empty), leaving the store untouched. -/
theorem signup_submit_short (db : DB) (d : Digest)
    (salt uid now token session_id : String) (form : SignupForm)
    (hu : (str_trim form.username).isEmpty = false)
    (hp : form.password.utf8ByteSize < 8) :
    signup_submit db d salt uid now token session_id form =
      (.formError "Password must be at least 8 characters long", db) := by
  simp [signup_submit, hu, hp]

/-- When the trimmed username is non-empty and the password is at
least 8 bytes, `signup_submit` never produces the length rejection:
its outcome is one of the later branches. -/
theorem signup_submit_msgs (db : DB) (d : Digest)
    (salt uid now token session_id : String) (form : SignupForm)
    (hu : (str_trim form.username).isEmpty = false)
    (hp : ¬ form.password.utf8ByteSize < 8) :
    (signup_submit db d salt uid now token session_id form).1 =
        .formError "Passwords do not match" ∨
      (signup_submit db d salt uid now token session_id form).1 =
        .redirect token ∨
      (signup_submit db d salt uid now token session_id form).1 =
        .formError "Username already exists" ∨
      (signup_submit db d salt uid now token session_id form).1 =
        .formError "Could not create account. Please try again." := by
  simp only [signup_submit, hu, Bool.false_eq_true, if_false, hp]
  split
  · exact Or.inl rfl
  · cases hc : create_user db d salt (str_trim form.username) form.password uid now with
    | ok p =>
      obtain ⟨uid2, db1⟩ := p
      exact Or.inr (Or.inl rfl)
    | error e =>
      have he := create_user_error_msg db d salt (str_trim form.username)
        form.password uid now e hc
      subst he
      exact Or.inr (Or.inr (Or.inl rfl))

/-- With pairwise-distinct usernames, a username that occurs occurs in
exactly one row. -/
theorem filter_username_singleton (l : List User) (n : String)
    (hnd : (l.map User.username).Nodup)
    (hex : ∃ u ∈ l, u.username = n) :
    (l.filter (fun u => u.username == n)).length = 1 := by
  induction l with
  | nil => simp at hex
  | cons x xs ih =>
    simp only [List.map_cons, List.nodup_cons] at hnd
    obtain ⟨hx, hxs⟩ := hnd
    by_cases hxn : x.username = n
    · have hnil : xs.filter (fun u => u.username == n) = [] := by
        rw [List.filter_eq_nil_iff]
        intro u hu hbeq
        exact hx (by
          rw [hxn]
          have hun : u.username = n := by simpa using hbeq
          exact hun ▸ List.mem_map_of_mem User.username hu)
      simp [List.filter_cons, hxn, hnil]
    · have hex' : ∃ u ∈ xs, u.username = n := by
        obtain ⟨u, hu, hun⟩ := hex
        cases List.mem_cons.mp hu with
        | inl heq => exact absurd (heq ▸ hun) hxn
        | inr hmem => exact ⟨u, hmem, hun⟩
      simpa [List.filter_cons, hxn] using ih hxs hex'

/-! ## Claims -/

/-- Claim C6: `extract_session_token` parses the cookie header by
splitting on `;`, trimming each segment, and returning the value of
the first `session_token=` segment; an absent or non-UTF-8 header and
a header with no matching segment give `none`; on
`"foo=bar; session_token=abc123; baz=qux"` it returns `"abc123"`. -/
theorem extract_token_spec :
    extract_session_token .absent = none ∧
    extract_session_token .invalid = none ∧
    extract_session_token (.value "foo=bar; session_token=abc123; baz=qux") =
      some "abc123" ∧
    ∀ s : String, extract_session_token (.value s) =
      ((split_on_char ';' s).map str_trim).findSome?
        (fun t => strip_leading "session_token=" t) := by
  refine ⟨rfl, rfl, by decide, fun s => ?_⟩
  rw [List.findSome?_map]
  rfl

/-- Claim C3: `current_user` never surfaces an error: a missing or
unusable cookie header, a token resolving to no session, or a storage
error from `validate_session` all collapse to `none` (anonymous), and
only a token resolving to a user yields that user. -/
theorem current_user_never_errors
    (validate : String → Except String (Option User)) (h : CookieHeader) :
    (extract_session_token h = none → current_user validate h = none) ∧
    (∀ t e, extract_session_token h = some t → validate t = .error e →
      current_user validate h = none) ∧
    (∀ t, extract_session_token h = some t → validate t = .ok none →
      current_user validate h = none) ∧
    (∀ t u, extract_session_token h = some t → validate t = .ok (some u) →
      current_user validate h = some u) := by
  refine ⟨fun h0 => ?_, fun t e h1 h2 => ?_, fun t h1 h2 => ?_, fun t u h1 h2 => ?_⟩
  · simp [current_user, h0]
  · simp [current_user, h1, h2]
  · simp [current_user, h1, h2]
  · simp [current_user, h1, h2]

/-- Witness for C3 at concrete inputs: a failing store collapses to
anonymous, as does a missing header. -/
theorem current_user_never_errors_witness :
    current_user (fun _ => .error "db down") (.value "session_token=abc") = none ∧
    current_user (fun _ => .error "db down") .absent = none :=
  ⟨(current_user_never_errors (fun _ => .error "db down")
      (.value "session_token=abc")).2.1 "abc" "db down" (by decide) rfl,
   (current_user_never_errors (fun _ => .error "db down") .absent).1 rfl⟩

/-- Claim C7: hashing the same password with two distinct fresh salts
yields two distinct blobs, and verification of the password succeeds
against both. -/
theorem hash_twice (d : Digest) (password s₁ s₂ : String) (h : s₁ ≠ s₂) :
    hash_password d password s₁ ≠ hash_password d password s₂ ∧
    verify_password d password (hash_password d password s₁) = .ok true ∧
    verify_password d password (hash_password d password s₂) = .ok true := by
  refine ⟨fun hc => ?_, verify_hash_self d password s₁, verify_hash_self d password s₂⟩
  simp only [hash_password, HashBlob.phc.injEq] at hc
  exact h hc.1

/-- Witness for C7 at concrete salts. -/
theorem hash_twice_witness :
    hash_password (fun p s => p ++ s) "pw" "a" ≠
      hash_password (fun p s => p ++ s) "pw" "b" ∧
    verify_password (fun p s => p ++ s) "pw"
      (hash_password (fun p s => p ++ s) "pw" "a") = .ok true ∧
    verify_password (fun p s => p ++ s) "pw"
      (hash_password (fun p s => p ++ s) "pw" "b") = .ok true :=
  hash_twice (fun p s => p ++ s) "pw" "a" "b" (by decide)

/-- Claim C1: for every username and password `create_user` accepts,
`verify_user` with the same credentials on the resulting store returns
a user whose id equals the id `create_user` returned. -/
theorem create_then_verify
    (db : DB) (d : Digest) (salt username password uid now uid' : String) (db' : DB)
    (h : create_user db d salt username password uid now = .ok (uid', db')) :
    (verify_user db' d username password).map (Option.map User.id) =
      .ok (some uid') := by
  obtain ⟨hnone, huid, husers⟩ :=
    create_user_ok db d salt username password uid now uid' db' h
  subst huid
  have hv : verify_user db' d username password =
      .ok (some { id := uid', username := username,
                  password_hash := hash_password d password salt,
                  created_at := now }) := by
    unfold verify_user
    rw [husers, List.find?_append, hnone]
    simp [List.find?_cons, verify_password, hash_password, parse_hash]
  rw [hv]
  rfl

/-- Witness for C1: a concrete signup on the empty store, then a
successful verification returning the created id. -/
theorem create_then_verify_witness :
    (verify_user
        ⟨[{ id := "u1", username := "alice",
            password_hash := hash_password (fun p s => p ++ s) "password1" "s1",
            created_at := "n1" }], []⟩
        (fun p s => p ++ s) "alice" "password1").map (Option.map User.id) =
      .ok (some "u1") :=
  create_then_verify ⟨[], []⟩ (fun p s => p ++ s) "s1" "alice" "password1" "u1" "n1"
    "u1"
    ⟨[{ id := "u1", username := "alice",
        password_hash := hash_password (fun p s => p ++ s) "password1" "s1",
        created_at := "n1" }], []⟩ rfl

/-- Claim C2 (amended): when `user_id` names a user present in the
store and the fresh token collides with no existing session,
`create_session` followed by `validate_session` on the returned token
yields a user with exactly that id; and validating any token right
after `delete_session` of that token yields `none`. -/
theorem create_session_then_validate
    (db : DB) (user_id token session_id now : String)
    (hu : ∃ u ∈ db.users, u.id = user_id)
    (ht : ∀ s ∈ db.sessions, s.token ≠ token) :
    (validate_session (create_session db user_id token session_id now).2
        (create_session db user_id token session_id now).1).map User.id =
      some user_id ∧
    ∀ (db₂ : DB) (t : String), validate_session (delete_session db₂ t) t = none := by
  constructor
  · have hnone : db.sessions.find? (fun s => s.token == token) = none := by
      rw [List.find?_eq_none]
      intro s hs
      simp [ht s hs]
    obtain ⟨u0, hu0, hid⟩ := hu
    have hfind : (db.users.find? (fun u => u.id == user_id)).isSome := by
      rw [List.find?_isSome]
      exact ⟨u0, hu0, by simp [hid]⟩
    cases hf : db.users.find? (fun u => u.id == user_id) with
    | none => rw [hf] at hfind; simp at hfind
    | some u1 =>
      simp only [create_session]
      unfold validate_session
      rw [List.find?_append, hnone]
      simp [List.find?_cons, hf]
  · intro db₂ t
    unfold validate_session delete_session
    have hnone2 : ((db₂.sessions.filter (fun s => !(s.token == t))).find?
        (fun s => s.token == t)) = none := by
      rw [List.find?_eq_none]
      intro s hs
      have hmem := (List.mem_filter.mp hs).2
      simp at hmem
      simp [hmem]
    rw [hnone2]

/-- Counterexample for C2 as stated: with a `user_id` naming no user
in the store, `create_session` succeeds but `validate_session` on the
returned token yields `none`, not a user — the join to the users table
finds nothing. -/
theorem validate_dangling_user_cex :
    validate_session (create_session ⟨[], []⟩ "ghost" "tok1" "sid1" "now").2
      (create_session ⟨[], []⟩ "ghost" "tok1" "sid1" "now").1 = none := by
  decide

/-- Witness for C2 at a concrete store holding the referenced user. -/
theorem create_session_then_validate_witness :
    (validate_session
        (create_session ⟨[⟨"u1", "alice", .phc "s1" "d1", "n1"⟩], []⟩
          "u1" "tok1" "sid1" "now").2
        (create_session ⟨[⟨"u1", "alice", .phc "s1" "d1", "n1"⟩], []⟩
          "u1" "tok1" "sid1" "now").1).map User.id = some "u1" ∧
    validate_session
      (delete_session ⟨[], [⟨"sid2", "u1", "tok2", "n2"⟩]⟩ "tok2")
      "tok2" = none :=
  ⟨(create_session_then_validate
      ⟨[⟨"u1", "alice", .phc "s1" "d1", "n1"⟩], []⟩
      "u1" "tok1" "sid1" "now" (by decide) (by decide)).1,
   (create_session_then_validate
      ⟨[⟨"u1", "alice", .phc "s1" "d1", "n1"⟩], []⟩
      "u1" "tok1" "sid1" "now" (by decide) (by decide)).2
     ⟨[], [⟨"sid2", "u1", "tok2", "n2"⟩]⟩ "tok2"⟩

/-- Claim C4 (amended): credential verification fails closed — a
malformed blob yields a parse error and a mismatched digest yields
`Ok(false)`, so neither ever verifies; but the parse error propagates
through `verify_user` as an error, so its callers can distinguish a
malformed stored blob from the wrong-password `Ok(None)`. -/
theorem verify_fails_closed
    (d : Digest) (password raw salt dgst username : String) (db : DB) (u : User) :
    verify_password d password (.malformed raw) = .error "Invalid password hash" ∧
    (d password salt ≠ dgst →
      verify_password d password (.phc salt dgst) = .ok false) ∧
    (db.users.find? (fun x => x.username == username) = some u →
      u.password_hash = .malformed raw →
      verify_user db d username password = .error "Invalid password hash") := by
  refine ⟨rfl, fun hne => ?_, fun hf hm => ?_⟩
  · simp [verify_password, parse_hash]
    exact hne
  · unfold verify_user
    rw [hf]
    simp [hm, verify_password, parse_hash]

/-- Witness for C4's amended statement at concrete inputs. -/
theorem verify_fails_closed_witness :
    verify_password (fun p s => p ++ s) "pw" (.malformed "zzz") =
      .error "Invalid password hash" ∧
    verify_password (fun p s => p ++ s) "pw" (.phc "s1" "other") = .ok false ∧
    verify_user ⟨[⟨"id1", "alice", .malformed "zzz", "now"⟩], []⟩
      (fun p s => p ++ s) "alice" "pw" = .error "Invalid password hash" :=
  ⟨(verify_fails_closed (fun p s => p ++ s) "pw" "zzz" "s1" "other" "alice"
      ⟨[⟨"id1", "alice", .malformed "zzz", "now"⟩], []⟩
      ⟨"id1", "alice", .malformed "zzz", "now"⟩).1,
   (verify_fails_closed (fun p s => p ++ s) "pw" "zzz" "s1" "other" "alice"
      ⟨[⟨"id1", "alice", .malformed "zzz", "now"⟩], []⟩
      ⟨"id1", "alice", .malformed "zzz", "now"⟩).2.1 (by decide),
   (verify_fails_closed (fun p s => p ++ s) "pw" "zzz" "s1" "other" "alice"
      ⟨[⟨"id1", "alice", .malformed "zzz", "now"⟩], []⟩
      ⟨"id1", "alice", .malformed "zzz", "now"⟩).2.2 rfl rfl⟩

/-- Counterexample for C4 as stated: a malformed stored blob surfaces
out of `verify_user` as an error, an outcome its callers can tell
apart from the wrong-password `Ok(None)` — the parse failure is not
confined to the hasher's inside. -/
theorem verify_user_malformed_distinct_cex :
    verify_user ⟨[⟨"id1", "alice", .malformed "zzz", "now"⟩], []⟩
      (fun p s => p ++ s) "alice" "pw" = .error "Invalid password hash" ∧
    verify_user ⟨[⟨"id2", "bob", .phc "s1" "other", "now"⟩], []⟩
      (fun p s => p ++ s) "bob" "pw" = .ok none ∧
    (Except.error "Invalid password hash" : Except String (Option User)) ≠
      .ok none :=
  ⟨rfl, rfl, by simp⟩

/-- Claim C5: with distinct usernames in the store, a second
`create_user` with an existing username fails with the duplicate
message — which the caller's `already exists` substring check singles
out from other failure messages — and exactly one user with that
username remains (the failing call inserts nothing: the error carries
no new state). -/
theorem create_user_duplicate
    (db : DB) (d : Digest) (salt username password uid now : String)
    (hnd : (db.users.map User.username).Nodup)
    (hex : ∃ u ∈ db.users, u.username = username) :
    create_user db d salt username password uid now =
      .error "Username already exists" ∧
    (db.users.filter (fun u => u.username == username)).length = 1 ∧
    contains_substr "Username already exists" "already exists" = true ∧
    contains_substr "Could not create account. Please try again."
      "already exists" = false := by
  refine ⟨?_, filter_username_singleton db.users username hnd hex, by decide, by decide⟩
  obtain ⟨u, hu, hun⟩ := hex
  have hs : (db.users.find? (fun x => x.username == username)).isSome := by
    rw [List.find?_isSome]
    exact ⟨u, hu, by simp [hun]⟩
  simp [create_user, hs]

/-- Witness for C5 at a concrete one-user store. -/
theorem create_user_duplicate_witness :
    create_user ⟨[⟨"u1", "alice", .phc "s1" "d1", "n1"⟩], []⟩
      (fun p s => p ++ s) "s2" "alice" "password2" "u2" "n2" =
      .error "Username already exists" ∧
    ((⟨[⟨"u1", "alice", .phc "s1" "d1", "n1"⟩], []⟩ : DB).users.filter
      (fun u => u.username == "alice")).length = 1 ∧
    contains_substr "Username already exists" "already exists" = true ∧
    contains_substr "Could not create account. Please try again."
      "already exists" = false :=
  create_user_duplicate
    ⟨[⟨"u1", "alice", .phc "s1" "d1", "n1"⟩], []⟩
    (fun p s => p ++ s) "s2" "alice" "password2" "u2" "n2"
    (by decide) (by decide)

/-- Claim C8 (amended): a submission whose trimmed username is
non-empty and whose password occupies fewer than 8 UTF-8 bytes is
rejected with the at-least-8-characters message and the store is
unchanged — no user is created. -/
theorem signup_short_password_rejected
    (db : DB) (d : Digest) (salt uid now token session_id : String)
    (form : SignupForm)
    (hu : (str_trim form.username).isEmpty = false)
    (hp : form.password.utf8ByteSize < 8) :
    signup_submit db d salt uid now token session_id form =
      (.formError "Password must be at least 8 characters long", db) :=
  signup_submit_short db d salt uid now token session_id form hu hp

/-- Witness for C8's amended statement with the spec's 5-byte
password. -/
theorem signup_short_password_rejected_witness :
    signup_submit ⟨[], []⟩ (fun p s => p ++ s) "s1" "u1" "n1" "t1" "i1"
        ⟨"dave", "short", "short"⟩ =
      (.formError "Password must be at least 8 characters long", ⟨[], []⟩) :=
  signup_short_password_rejected ⟨[], []⟩ (fun p s => p ++ s) "s1" "u1" "n1" "t1"
    "i1" ⟨"dave", "short", "short"⟩ (by decide) (by decide)

/-- Counterexample for C8 as stated: a 5-character password of
two-byte characters occupies 10 bytes, slips past the length check,
and signup succeeds — a user is created instead of the claimed
rejection. -/
theorem signup_short_password_cex :
    ("ααααα" : String).length = 5 ∧
    (signup_submit ⟨[], []⟩ (fun p s => p ++ s) "s1" "u1" "n1" "t1" "i1"
        ⟨"carol", "ααααα", "ααααα"⟩).1 = .redirect "t1" ∧
    ((signup_submit ⟨[], []⟩ (fun p s => p ++ s) "s1" "u1" "n1" "t1" "i1"
        ⟨"carol", "ααααα", "ααααα"⟩).2).users.length = 1 := by
  refine ⟨by decide, by decide, by decide⟩

/-- Claim C10: the minimum-length check compares the password's UTF-8
byte count (`str::len`): the at-least-8 rejection fires exactly on a
non-empty trimmed username with a sub-8-byte password, and a 5-character
10-byte password is accepted. -/
theorem password_length_is_bytes :
    (∀ (db : DB) (d : Digest) (salt uid now token session_id : String)
        (form : SignupForm),
      (signup_submit db d salt uid now token session_id form).1 =
          .formError "Password must be at least 8 characters long" ↔
        ((str_trim form.username).isEmpty = false ∧
          form.password.utf8ByteSize < 8)) ∧
    ("ααααα" : String).length = 5 ∧
    ("ααααα" : String).utf8ByteSize = 10 ∧
    (signup_submit ⟨[], []⟩ (fun p s => p ++ s) "s1" "u1" "n1" "t1" "i1"
        ⟨"alice", "ααααα", "ααααα"⟩).1 = .redirect "t1" := by
  refine ⟨fun db d salt uid now token session_id form => ?_, by decide, by decide,
    by decide⟩
  constructor
  · intro hres
    by_cases h1 : (str_trim form.username).isEmpty = true
    · rw [show signup_submit db d salt uid now token session_id form =
          (.formError "Username cannot be empty", db) from by
            simp [signup_submit, h1]] at hres
      simp at hres
    · by_cases h2 : form.password.utf8ByteSize < 8
      · exact ⟨by simpa using h1, h2⟩
      · exfalso
        have h1' : (str_trim form.username).isEmpty = false := by simpa using h1
        rcases signup_submit_msgs db d salt uid now token session_id form h1' h2 with
          hcase | hcase | hcase | hcase <;>
          rw [hcase] at hres <;> simp at hres
  · intro hok
    rw [signup_submit_short db d salt uid now token session_id form hok.1 hok.2]

/-- Witness for C10: the rejection fires on a concrete 5-byte
password via the characterization. -/
theorem password_length_is_bytes_witness :
    (signup_submit ⟨[], []⟩ (fun p s => p ++ s) "s1" "u1" "n1" "t1" "i1"
        ⟨"bob", "short", "short"⟩).1 =
      .formError "Password must be at least 8 characters long" :=
  (password_length_is_bytes.1 ⟨[], []⟩ (fun p s => p ++ s) "s1" "u1" "n1" "t1" "i1"
    ⟨"bob", "short", "short"⟩).mpr ⟨by decide, by decide⟩

/-- Claim C9: the serialized form of a `User` excludes the password
hash: two users differing only in `password_hash` serialize
identically, and `password_hash` is not among the emitted fields. -/
theorem serialize_user_excludes_hash :
    (∀ (u : User) (ph : HashBlob),
      serialize_user { u with password_hash := ph } = serialize_user u) ∧
    (∀ u : User, ((serialize_user u).map Prod.fst).contains "password_hash" = false) ∧
    (∀ u : User, (serialize_user u).map Prod.fst = ["id", "username", "created_at"]) :=
  ⟨fun _ _ => rfl, fun _ => rfl, fun _ => rfl⟩

end Alaya
